import Mathlib

/-!
Shallow embedding of the configuration/runtime core of the ESP32
temperature logger firmware (`src/firmware/Temperaturlogger.ino`).

Arduino `String` values are modelled as Lean `String`; the in-place
member operations `trim`, `toLowerCase`, `toUpperCase`, `replace` and
`substring` are modelled as pure functions on the character list.
C `int` is modelled as `Int`, `unsigned long` as `Nat` (all clamping in
the source keeps values far below 2^32, so no wraparound arises in the
modelled operations).  Side-effecting parts (the upload loop, runtime
re-application) are modelled as pure functions from an explicit
environment to a record of the observable actions they perform.
-/

namespace Templogger

/-- C `isspace` on the ASCII range: space, \t, \n, \v, \f, \r.
Arduino `String::trim` removes exactly these from both ends. -/
def isSpaceChar (c : Char) : Bool :=
  c.toNat = 32 || c.toNat = 9 || c.toNat = 10 || c.toNat = 11 ||
  c.toNat = 12 || c.toNat = 13

/-- Drop `p`-characters from both ends of a list. -/
def listTrim {α} (p : α → Bool) (l : List α) : List α :=
  ((l.dropWhile p).reverse.dropWhile p).reverse

/-- Arduino `String::trim`: drop `isspace` characters from both ends. -/
def strTrim (s : String) : String :=
  String.mk (listTrim isSpaceChar s.data)

/-- Arduino `String::toLowerCase`: C `tolower` on each character
(`Char.toLower` is exactly ASCII `tolower`). -/
def strLower (s : String) : String :=
  String.mk (s.data.map Char.toLower)

/-- Arduino `String::toUpperCase`: C `toupper` on each character
(`Char.toUpper` is exactly ASCII `toupper`). -/
def strUpper (s : String) : String :=
  String.mk (s.data.map Char.toUpper)

/-- Arduino `String::replace(":", "")`: removes every colon. -/
def stripColons (s : String) : String :=
  String.mk (s.data.filter (fun c => c ≠ ':'))

/-- Arduino `String::length()`. -/
def strLen (s : String) : Nat := s.data.length

/-- Arduino `String::substring(n)`: the suffix from position `n`. -/
def strDrop (n : Nat) (s : String) : String :=
  String.mk (s.data.drop n)

-- -------------------------------------------------
-- Standardwerte (Temperaturlogger.ino lines 27-35)
-- -------------------------------------------------

def INFLUXDB_URL_DEFAULT : String := "https://eu-central-1-1.aws.cloud2.influxdata.com"
def INFLUXDB_BUCKET_DEFAULT : String := "BucketMeaserments"
def DEFAULT_MEASUREMENT : String := "temperature"

def DEFAULT_TEMP_RES : Int := 10
def DEFAULT_INTERVAL_MS : Nat := 30000
def DEFAULT_IDENT_INTERVAL_MS : Nat := 30000

def MAX_ROOMS : Nat := 32

-- -------------------------------------------------
-- Mode (lines 43-65)
-- -------------------------------------------------

inductive Mode where
  | Operate
  | Identify
deriving DecidableEq, Repr

/-- Source `modeToString` (lines 48-54). -/
def modeToString : Mode → String
  | Mode.Operate => "operate"
  | Mode.Identify => "identify"

/-- Source `parseModeFromInput` (lines 56-65).  The C++ function writes
the parsed mode through an out-parameter and returns a success flag;
that pair is modelled as an `Option Mode`. -/
def parseModeFromInput (inputMode : String) : Option Mode :=
  let normalized := strLower (strTrim inputMode)
  if normalized = "operate" then some Mode.Operate
  else if normalized = "identify" then some Mode.Identify
  else none

-- -------------------------------------------------
-- Persistente Konfiguration (struct Config, lines 70-87)
-- -------------------------------------------------

structure Config where
  url : String
  token : String
  org : String
  bucket : String
  measurement : String
  deviceId : String
  aliasName : String      -- field `alias` of the source struct
  tempResBits : Int
  operateIntervalMs : Nat
  identifyIntervalMs : Nat
  currentMode : Mode
  rooms : List String
deriving DecidableEq, Repr

/-- Source `normalizeConfig` (lines 255-278), as a pure function on the
configuration record.  The source mutates `cfg` field by field; every
assignment only reads the field it overwrites, so the sequential body
is the parallel update below. -/
def normalizeConfig (c : Config) : Config :=
  let url0 := strTrim c.url
  let bucket0 := strTrim c.bucket
  let measurement0 := strTrim c.measurement
  let org0 := strTrim c.org
  let token0 := strTrim c.token
  let deviceId0 := strTrim c.deviceId
  let alias0 := strTrim c.aliasName
  let url1 := if strLen url0 = 0 then INFLUXDB_URL_DEFAULT else url0
  let bucket1 := if strLen bucket0 = 0 then INFLUXDB_BUCKET_DEFAULT else bucket0
  let measurement1 := if strLen measurement0 = 0 then DEFAULT_MEASUREMENT else measurement0
  let tempRes1 := if c.tempResBits < 9 then 9 else c.tempResBits
  let tempRes2 := if tempRes1 > 12 then 12 else tempRes1
  let operate1 := if c.operateIntervalMs < 5000 then 5000 else c.operateIntervalMs
  let operate2 := if operate1 > 3600000 then 3600000 else operate1
  let ident1 := if c.identifyIntervalMs < 2000 then 2000 else c.identifyIntervalMs
  let ident2 := if ident1 > 3600000 then 3600000 else ident1
  let rooms1 := if c.rooms.length > MAX_ROOMS then c.rooms.take MAX_ROOMS else c.rooms
  { url := url1, token := token0, org := org0, bucket := bucket1,
    measurement := measurement1, deviceId := deviceId0, aliasName := alias0,
    tempResBits := tempRes2, operateIntervalMs := operate2,
    identifyIntervalMs := ident2, currentMode := c.currentMode, rooms := rooms1 }

/-- Source `influxConfigIsUsable` (lines 280-285): C truthiness of the
four lengths, i.e. all four strings non-empty. -/
def influxConfigIsUsable (c : Config) : Bool :=
  decide (strLen c.url ≠ 0) && decide (strLen c.bucket ≠ 0) &&
  decide (strLen c.org ≠ 0) && decide (strLen c.token ≠ 0)

-- -------------------------------------------------
-- DeviceId aus STA-MAC (lines 225-249)
-- -------------------------------------------------

/-- Source `getStaMacHexUpper` (lines 225-230).  The string returned by
`WiFi.macAddress()` is the explicit argument `mac`; the function strips
the colons and upper-cases the rest. -/
def getStaMacHexUpper (mac : String) : String :=
  strUpper (stripColons mac)

/-- Source `deriveDeviceIdFromStaMac` (lines 233-237). -/
def deriveDeviceIdFromStaMac (mac : String) : String :=
  let macSuffix := getStaMacHexUpper mac
  if strLen macSuffix ≠ 12 then "esp32-000000"
  else "esp32-" ++ strDrop 6 macSuffix

/-- Source `enforceDeviceIdFromStaMac` (lines 240-249): overwrite
`cfg.deviceId` with the trimmed derived id when different; the returned
flag reports whether a change occurred. -/
def enforceDeviceIdFromStaMac (c : Config) (mac : String) : Config × Bool :=
  let derivedDeviceId := strTrim (deriveDeviceIdFromStaMac mac)
  if c.deviceId ≠ derivedDeviceId then
    ({ c with deviceId := derivedDeviceId }, true)
  else (c, false)

-- -------------------------------------------------
-- Sensor-/Mapping Helper (lines 206-218)
-- -------------------------------------------------

/-- Source `sensorIdFromIndex` (lines 206-208): logical name from the
0-based index, `0 → "S1"`. -/
def sensorIdFromIndex (indexZeroBased : Int) : String :=
  "S" ++ toString (indexZeroBased + 1)

/-- Source `roomForSensorIndex` (lines 211-218), with the `cfg.rooms`
global passed explicitly through the configuration record.  The
in-range vector access `cfg.rooms[sensorIndex]` is `getD`; the guard
makes the default unreachable. -/
def roomForSensorIndex (c : Config) (sensorIndex : Int) : String :=
  if 0 ≤ sensorIndex ∧ sensorIndex < (c.rooms.length : Int) then
    let configuredRoomName := strTrim (c.rooms.getD sensorIndex.toNat "")
    if 0 < strLen configuredRoomName then configuredRoomName
    else sensorIdFromIndex sensorIndex
  else sensorIdFromIndex sensorIndex

-- -------------------------------------------------
-- Influx Client (lines 102, 291-302) and Runtime (lines 308-344)
-- -------------------------------------------------

/-- The construction parameters of an `InfluxDBClient` (line 297-299);
the nullable global `influxClient` is an `Option InfluxClient`. -/
structure InfluxClient where
  url : String
  org : String
  bucket : String
  token : String
deriving DecidableEq, Repr

/-- Source `initInfluxClient` (lines 291-302): the freshly built client
holds the current configuration's connection fields. -/
def initInfluxClient (c : Config) : InfluxClient :=
  { url := c.url, org := c.org, bucket := c.bucket, token := c.token }

/-- Observable outcome of the Influx section of `applyConfigToRuntime`
(lines 322-340): the client slot after the call, and whether
`validateConnection` was invoked on a freshly built client. -/
structure ApplyOutcome where
  client : Option InfluxClient
  validationAttempted : Bool
deriving DecidableEq, Repr

/-- Source `applyConfigToRuntime`, Influx section (lines 322-340):
in Identify the client is deleted; in Operate it is rebuilt from the
current configuration and validated when the credentials are usable,
and deleted otherwise.  (The sensor-resolution loop and timer restart
of lines 309-320/343 touch no modelled state.) -/
def applyConfigToRuntime (c : Config) : ApplyOutcome :=
  if c.currentMode = Mode.Identify then
    { client := none, validationAttempted := false }
  else if influxConfigIsUsable c then
    { client := some (initInfluxClient c), validationAttempted := true }
  else
    { client := none, validationAttempted := false }

-- -------------------------------------------------
-- Config Load/Save (lines 350-418)
-- -------------------------------------------------

/-- The persisted `/config.json` document as a structured record: one
optional slot per key used by `loadConfig`/`saveConfig`.  A `none`
models a key that is missing or of the wrong JSON type, the cases in
which ArduinoJson's `doc[key] | default` yields the default. -/
structure StoredConfig where
  url : Option String
  token : Option String
  org : Option String
  bucket : Option String
  measurement : Option String
  deviceId : Option String
  aliasName : Option String    -- key "alias"
  tempResBits : Option Int
  operateIntervalMs : Option Nat
  identifyIntervalMs : Option Nat
  mode : Option String
  rooms : Option (List String)
deriving DecidableEq, Repr

/-- Source `loadConfig` (lines 350-392), the deserialization step on a
successfully parsed document: per-field defaulting via `|`, mode parse
with fallback `Operate`, rooms truncated at `MAX_ROOMS`, then
`normalizeConfig`.  (The I/O failure paths return `false` before any
field is read and leave the record untouched.) -/
def loadConfig (j : StoredConfig) : Config :=
  let currentMode :=
    match parseModeFromInput (j.mode.getD "operate") with
    | some setMode => setMode
    | none => Mode.Operate
  normalizeConfig
    { url := j.url.getD INFLUXDB_URL_DEFAULT,
      token := j.token.getD "",
      org := j.org.getD "",
      bucket := j.bucket.getD INFLUXDB_BUCKET_DEFAULT,
      measurement := j.measurement.getD DEFAULT_MEASUREMENT,
      deviceId := j.deviceId.getD "",
      aliasName := j.aliasName.getD "",
      tempResBits := j.tempResBits.getD DEFAULT_TEMP_RES,
      operateIntervalMs := j.operateIntervalMs.getD DEFAULT_INTERVAL_MS,
      identifyIntervalMs := j.identifyIntervalMs.getD DEFAULT_IDENT_INTERVAL_MS,
      currentMode := currentMode,
      rooms := (j.rooms.getD []).take MAX_ROOMS }

/-- Source `saveConfig` (lines 394-418), the serialization step: every
field is written, mode through `modeToString`, rooms as an array. -/
def saveConfig (c : Config) : StoredConfig :=
  { url := some c.url, token := some c.token, org := some c.org,
    bucket := some c.bucket, measurement := some c.measurement,
    deviceId := some c.deviceId, aliasName := some c.aliasName,
    tempResBits := some c.tempResBits,
    operateIntervalMs := some c.operateIntervalMs,
    identifyIntervalMs := some c.identifyIntervalMs,
    mode := some (modeToString c.currentMode),
    rooms := some c.rooms }

-- -------------------------------------------------
-- handleSave, mode step (lines 521-526)
-- -------------------------------------------------

/-- The `mode` block of source `handleSave` (lines 521-526): when the
form carries a `mode` argument that parses, the current mode is
replaced; an unparsable argument leaves it untouched. -/
def handleSaveModeStep (c : Config) (modeArg : Option String) : Config :=
  match modeArg with
  | none => c
  | some inputMode =>
    match parseModeFromInput inputMode with
    | some setMode => { c with currentMode := setMode }
    | none => c

-- -------------------------------------------------
-- handleSaveRooms (lines 703-727)
-- -------------------------------------------------

/-- Source `handleSaveRooms` (lines 703-727), its effect on the
configuration record.  `deviceCount` is `temperatureBus.getDeviceCount()`
(a C `int`), `args` are the POSTed form fields (`none` = absent), `mac`
feeds `forceDeviceIdFromMac`.  The source clamps the count to
`[0, MAX_ROOMS]`, rebuilds `cfg.rooms` from scratch with one entry per
sensor, re-enforces the device id and normalizes.  (The persistence and
HTTP-response steps touch no modelled state.) -/
def handleSaveRooms (c : Config) (deviceCount : Int)
    (args : String → Option String) (mac : String) : Config :=
  let count0 : Int := if deviceCount < 0 then 0 else deviceCount
  let count : Nat := (if count0 > (MAX_ROOMS : Int) then (MAX_ROOMS : Int) else count0).toNat
  let rooms := (List.range count).map
    (fun i => (args ("room" ++ toString (i + 1))).getD "")
  let c1 := { c with rooms := rooms }
  let c2 := (enforceDeviceIdFromStaMac c1 mac).1
  normalizeConfig c2

-- -------------------------------------------------
-- loop (lines 915-966)
-- -------------------------------------------------

/-- Environment of one `loop` invocation: what the sensor bus and the
Influx client library would answer.  `address i` is the result of
`temperatureBus.getAddress(_, i)` (`none` = unresolvable), `tempC i`
the reading for index `i` (its value is irrelevant to the control
flow), `writeOk i` whether `writePoint` for index `i` succeeds, and
`flushOk` whether `flushBuffer` succeeds. -/
structure LoopEnv where
  deviceCount : Int
  address : Nat → Option (List Nat)
  tempC : Nat → Int
  writeOk : Nat → Bool
  flushOk : Bool

/-- One data point as handed to `writePoint` (lines 945-951): the
measurement name and the tags/field attached to it. -/
structure MeasurementPoint where
  measurement : String
  device : String
  aliasTag : Option String
  sensor : String
  room : String
  rom : List Nat
  value : Int
deriving DecidableEq, Repr

/-- The point built for sensor index `i` (lines 945-951). -/
def buildPoint (c : Config) (env : LoopEnv) (i : Nat) (addr : List Nat) : MeasurementPoint :=
  { measurement := c.measurement,
    device := c.deviceId,
    aliasTag := if 0 < strLen c.aliasName then some c.aliasName else none,
    sensor := sensorIdFromIndex (i : Int),
    room := roomForSensorIndex c (i : Int),
    rom := addr,
    value := env.tempC i }

/-- The per-sensor for-loop of `loop` (lines 940-957): walk the indices
in order; an unresolvable address is skipped with `continue`; for a
resolvable one the point is always submitted via `writePoint`, and a
failed submission is only logged (second component) before the loop
moves on.  Returns (submitted points, indices whose write failed). -/
def sensorLoop (c : Config) (env : LoopEnv) :
    List Nat → List MeasurementPoint × List Nat
  | [] => ([], [])
  | i :: rest =>
    match env.address i with
    | none => sensorLoop c env rest
    | some addr =>
      let (pts, fails) := sensorLoop c env rest
      if env.writeOk i then (buildPoint c env i addr :: pts, fails)
      else (buildPoint c env i addr :: pts, i :: fails)

/-- Observable outcome of one `loop` invocation. -/
structure LoopOutcome where
  submitted : List MeasurementPoint
  writeFailures : List Nat
  flushCalls : Nat
  signal : Option Bool        -- some true = signalCycleOk, some false = signalCycleFail
  newLastSampleMs : Nat
deriving DecidableEq, Repr

/-- Unsigned 32-bit subtraction `(unsigned long)(nowMs - lastSampleMs)`
of line 921. -/
def usub32 (a b : Nat) : Nat := (a + (2 ^ 32 - b % 2 ^ 32)) % 2 ^ 32

/-- Source `loop` (lines 915-966) as a pure function of the current
configuration, client slot, environment and timer state.  Mirrors the
early returns: Identify mode, interval not elapsed, missing
credentials/client, no sensors; otherwise runs the sensor loop, calls
`flushBuffer` exactly once and signals its result. -/
def loopTick (c : Config) (client : Option InfluxClient) (env : LoopEnv)
    (nowMs lastSampleMs : Nat) : LoopOutcome :=
  if c.currentMode = Mode.Identify then
    { submitted := [], writeFailures := [], flushCalls := 0,
      signal := none, newLastSampleMs := lastSampleMs }
  else if usub32 nowMs lastSampleMs < c.operateIntervalMs then
    { submitted := [], writeFailures := [], flushCalls := 0,
      signal := none, newLastSampleMs := lastSampleMs }
  else if ¬ (influxConfigIsUsable c = true) ∨ client = none then
    { submitted := [], writeFailures := [], flushCalls := 0,
      signal := some false, newLastSampleMs := nowMs }
  else if env.deviceCount ≤ 0 then
    { submitted := [], writeFailures := [], flushCalls := 0,
      signal := some false, newLastSampleMs := nowMs }
  else
    let count : Nat :=
      (if env.deviceCount > (MAX_ROOMS : Int) then (MAX_ROOMS : Int) else env.deviceCount).toNat
    let (pts, fails) := sensorLoop c env (List.range count)
    { submitted := pts, writeFailures := fails, flushCalls := 1,
      signal := some env.flushOk, newLastSampleMs := nowMs }

/-- Character class: ASCII hexadecimal digit (either case). -/
def isHexDigitChar (c : Char) : Bool :=
  (48 ≤ c.toNat && c.toNat ≤ 57) || (65 ≤ c.toNat && c.toNat ≤ 70) ||
  (97 ≤ c.toNat && c.toNat ≤ 102)

/-- Character class: ASCII uppercase hexadecimal digit. -/
def isUpperHexChar (c : Char) : Bool :=
  (48 ≤ c.toNat && c.toNat ≤ 57) || (65 ≤ c.toNat && c.toNat ≤ 70)

/-- Sample configuration used by concrete witnesses. -/
def demoConfig : Config :=
  { url := "", token := " tok ", org := "org", bucket := "",
    measurement := "", deviceId := "", aliasName := "  al  ",
    tempResBits := 10, operateIntervalMs := 30000, identifyIntervalMs := 30000,
    currentMode := Mode.Operate, rooms := ["Kitchen", "", "Bath"] }

/-- Sensor-bus/client environment of the concrete upload scenario:
three enumerated sensors, index 1 unresolvable, all writes and the
flush succeeding. -/
def scenarioEnv : LoopEnv :=
  { deviceCount := 3,
    address := fun i => if i = 1 then none else some [i, 40],
    tempC := fun _ => 21,
    writeOk := fun _ => true,
    flushOk := true }

/-- Client built from the normalized sample configuration. -/
def scenarioClient : InfluxClient := initInfluxClient (normalizeConfig demoConfig)

/-- The sample configuration switched to Identify mode. -/
def identifyConfig : Config :=
  { normalizeConfig demoConfig with currentMode := Mode.Identify }

-- =================================================
-- Helper lemmas
-- =================================================

theorem data_mk (l : List Char) : (String.mk l).data = l := rfl

theorem data_empty : ("" : String).data = [] := rfl

theorem strLen_eq_zero_iff (s : String) : strLen s = 0 ↔ s = "" := by
  cases s with
  | mk l =>
    simp [strLen, String.ext_iff, data_mk, data_empty, List.length_eq_zero]

theorem dropWhile_self {α} {p : α → Bool} {l : List α}
    (h : ∀ a ∈ l.head?, p a = false) : l.dropWhile p = l := by
  cases l with
  | nil => rfl
  | cons a t =>
    have ha : p a = false := h a (by simp)
    simp [List.dropWhile_cons, ha]

theorem head?_dropWhile_false {α} (p : α → Bool) (l : List α) :
    ∀ a ∈ (l.dropWhile p).head?, p a = false := by
  induction l with
  | nil => simp
  | cons x xs ih =>
    by_cases h : p x
    · simpa [List.dropWhile_cons, h] using ih
    · simp [List.dropWhile_cons, h]

theorem getLast?_dropWhile_false {α} {p : α → Bool} {l : List α}
    (h : ∀ a ∈ l.getLast?, p a = false) :
    ∀ a ∈ (l.dropWhile p).getLast?, p a = false := by
  induction l with
  | nil => simp
  | cons x xs ih =>
    by_cases hx : p x
    · rw [List.dropWhile_cons_of_pos hx]
      apply ih
      intro a ha
      apply h
      cases xs with
      | nil => simp at ha
      | cons y ys => simpa [List.getLast?_cons_cons] using ha
    · rw [List.dropWhile_cons_of_neg hx]
      exact h

theorem listTrim_idem {α} (p : α → Bool) (l : List α) :
    listTrim p (listTrim p l) = listTrim p l := by
  unfold listTrim
  have h1 : ∀ a ∈ ((l.dropWhile p).reverse.dropWhile p).head?, p a = false :=
    head?_dropWhile_false p _
  have h2 : ∀ a ∈ ((l.dropWhile p).reverse.dropWhile p).getLast?, p a = false := by
    apply getLast?_dropWhile_false
    intro a ha
    rw [List.getLast?_reverse] at ha
    exact head?_dropWhile_false p _ a ha
  have e1 : ((l.dropWhile p).reverse.dropWhile p).reverse.dropWhile p =
      ((l.dropWhile p).reverse.dropWhile p).reverse := by
    apply dropWhile_self
    intro a ha
    rw [List.head?_reverse] at ha
    exact h2 a ha
  rw [e1, List.reverse_reverse, dropWhile_self h1]

theorem strTrim_idem (s : String) : strTrim (strTrim s) = strTrim s := by
  simp [strTrim, data_mk, listTrim_idem]

theorem trimDefault_stable (d s : String) (hd : strTrim d = d) (hne : ¬ strLen d = 0) :
    (if strLen (strTrim (if strLen (strTrim s) = 0 then d else strTrim s)) = 0 then d
     else strTrim (if strLen (strTrim s) = 0 then d else strTrim s)) =
    (if strLen (strTrim s) = 0 then d else strTrim s) := by
  by_cases h : strLen (strTrim s) = 0
  · simp [h, hd, hne]
  · simp [h, strTrim_idem]

theorem roomsTrunc_stable (r : List String) :
    (if (if r.length > MAX_ROOMS then r.take MAX_ROOMS else r).length > MAX_ROOMS
     then (if r.length > MAX_ROOMS then r.take MAX_ROOMS else r).take MAX_ROOMS
     else (if r.length > MAX_ROOMS then r.take MAX_ROOMS else r)) =
    (if r.length > MAX_ROOMS then r.take MAX_ROOMS else r) := by
  by_cases h : r.length > MAX_ROOMS
  · rw [if_pos h, if_neg (by simp only [List.length_take]; omega)]
  · rw [if_neg h, if_neg h]

theorem normalizeConfig_stable (c : Config) :
    normalizeConfig (normalizeConfig c) = normalizeConfig c := by
  simp only [normalizeConfig, Config.mk.injEq]
  refine ⟨?_, ?_, ?_, ?_, ?_, ?_, ?_, ?_, ?_, ?_, trivial, ?_⟩
  · exact trimDefault_stable _ _ (by decide) (by decide)
  · exact strTrim_idem _
  · exact strTrim_idem _
  · exact trimDefault_stable _ _ (by decide) (by decide)
  · exact trimDefault_stable _ _ (by decide) (by decide)
  · exact strTrim_idem _
  · exact strTrim_idem _
  · split_ifs <;> omega
  · split_ifs <;> omega
  · split_ifs <;> omega
  · exact roomsTrunc_stable _

theorem parse_modeToString (m : Mode) :
    parseModeFromInput (modeToString m) = some m := by
  cases m <;> decide

theorem normalize_rooms_le (c : Config) :
    (normalizeConfig c).rooms.length ≤ MAX_ROOMS := by
  simp only [normalizeConfig, MAX_ROOMS]
  split_ifs with h
  · simp only [List.length_take]
    omega
  · omega

theorem enforce_rooms (c : Config) (mac : String) :
    ((enforceDeviceIdFromStaMac c mac).1).rooms = c.rooms := by
  simp only [enforceDeviceIdFromStaMac]
  split <;> rfl

theorem normalize_rooms_short (c : Config) (h : c.rooms.length ≤ MAX_ROOMS) :
    (normalizeConfig c).rooms = c.rooms := by
  simp only [normalizeConfig]
  rw [if_neg (by omega)]

theorem sensorLoop_eq (c : Config) (env : LoopEnv) (idxs : List Nat) :
    sensorLoop c env idxs =
      (idxs.filterMap (fun i => (env.address i).map (buildPoint c env i)),
       idxs.filter (fun i => ((env.address i).isSome && ! env.writeOk i))) := by
  induction idxs with
  | nil => rfl
  | cons i rest ih =>
    cases ha : env.address i with
    | none => simp [sensorLoop, ha, List.filterMap_cons, List.filter_cons, ih]
    | some addr =>
      by_cases hw : env.writeOk i
      · simp [sensorLoop, ha, hw, List.filterMap_cons, List.filter_cons, ih]
      · simp [sensorLoop, ha, hw, List.filterMap_cons, List.filter_cons, ih]

-- =================================================
-- Claims
-- =================================================

/-- Claim C1: `normalizeConfig` is idempotent — trimming all string
fields, substituting the built-in defaults for empty url/bucket/
measurement, clamping `tempResBits` to [9,12], `operateIntervalMs` to
[5000,3600000], `identifyIntervalMs` to [2000,3600000] and truncating
`rooms` to the maximum sensor count, applied twice, gives the same
configuration as applied once. -/
theorem normalizeConfig_idem (c : Config) :
    normalizeConfig (normalizeConfig c) = normalizeConfig c :=
  normalizeConfig_stable c

/-- Claim C8: after normalization `tempResBits` always lies in [9,12],
and an input already inside [9,12] is preserved exactly. -/
theorem tempResBits_clamped (c : Config) :
    (9 ≤ (normalizeConfig c).tempResBits ∧ (normalizeConfig c).tempResBits ≤ 12) ∧
    (9 ≤ c.tempResBits → c.tempResBits ≤ 12 →
      (normalizeConfig c).tempResBits = c.tempResBits) := by
  simp only [normalizeConfig]
  constructor
  · constructor <;> (split_ifs <;> omega)
  · intro h1 h2
    split_ifs <;> omega

/-- Witness for C8 at a concrete configuration: `tempResBits = 10` is
inside the range and survives normalization unchanged. -/
theorem tempResBits_clamped_witness :
    (normalizeConfig demoConfig).tempResBits = demoConfig.tempResBits :=
  (tempResBits_clamped demoConfig).2 (by decide) (by decide)

theorem normalize_url_len (c : Config) : ¬ strLen (normalizeConfig c).url = 0 := by
  simp only [normalizeConfig]
  by_cases h : strLen (strTrim c.url) = 0
  · simp [h]
    decide
  · simp [h]

theorem normalize_bucket_len (c : Config) : ¬ strLen (normalizeConfig c).bucket = 0 := by
  simp only [normalizeConfig]
  by_cases h : strLen (strTrim c.bucket) = 0
  · simp [h]
    decide
  · simp [h]

theorem char_toNat_ofNat {n : Nat} (h : n < 55296) : (Char.ofNat n).toNat = n := by
  unfold Char.ofNat
  rw [dif_pos (Or.inl h : n.isValidChar)]
  rfl

theorem toUpper_hex {c : Char} (h : isHexDigitChar c = true) :
    isUpperHexChar (Char.toUpper c) = true := by
  simp only [isHexDigitChar, Bool.or_eq_true, Bool.and_eq_true, decide_eq_true_eq] at h
  simp only [Char.toUpper]
  by_cases hc : c.toNat ≥ 97 ∧ c.toNat ≤ 122
  · rw [if_pos hc]
    have hv : (Char.ofNat (c.toNat - 32)).toNat = c.toNat - 32 :=
      char_toNat_ofNat (by omega)
    simp only [isUpperHexChar, hv, Bool.or_eq_true, Bool.and_eq_true, decide_eq_true_eq]
    omega
  · rw [if_neg hc]
    simp only [isUpperHexChar, Bool.or_eq_true, Bool.and_eq_true, decide_eq_true_eq]
    omega

theorem getStaMacHexUpper_chars {mac : String}
    (hmac : ∀ c ∈ mac.data, isHexDigitChar c = true ∨ c = ':') :
    ∀ c ∈ (getStaMacHexUpper mac).data, isUpperHexChar c = true := by
  intro c hc
  simp only [getStaMacHexUpper, strUpper, stripColons, data_mk, List.mem_map] at hc
  obtain ⟨b, hb, rfl⟩ := hc
  rw [List.mem_filter] at hb
  have hbq : b ≠ ':' := by simpa using hb.2
  rcases hmac b hb.1 with hh | hcol
  · exact toUpper_hex hh
  · exact absurd hcol hbq

/-- Claim C2: `deriveDeviceIdFromStaMac` is deterministic (it is a pure
function of the reported MAC string) and, for every string over the
MAC alphabet (hex digits and colons), its result is `"esp32-"` followed
by exactly 6 uppercase hex characters: the last 6 characters of the
stripped uppercased address when that has exactly 12 characters, and
the sentinel `"esp32-000000"` otherwise. -/
theorem deriveDeviceId_spec (mac : String)
    (hmac : ∀ c ∈ mac.data, isHexDigitChar c = true ∨ c = ':') :
    (∃ suffix : String,
        deriveDeviceIdFromStaMac mac = "esp32-" ++ suffix ∧
        strLen suffix = 6 ∧ ∀ c ∈ suffix.data, isUpperHexChar c = true) ∧
    (strLen (getStaMacHexUpper mac) = 12 →
        deriveDeviceIdFromStaMac mac = "esp32-" ++ strDrop 6 (getStaMacHexUpper mac)) ∧
    (strLen (getStaMacHexUpper mac) ≠ 12 →
        deriveDeviceIdFromStaMac mac = "esp32-000000") := by
  refine ⟨?_, ?_, ?_⟩
  · by_cases h12 : strLen (getStaMacHexUpper mac) = 12
    · refine ⟨strDrop 6 (getStaMacHexUpper mac), by simp [deriveDeviceIdFromStaMac, h12], ?_, ?_⟩
      · simp only [strLen, strDrop, data_mk, List.length_drop]
        simp only [strLen] at h12
        omega
      · intro c hc
        apply getStaMacHexUpper_chars hmac
        simp only [strDrop, data_mk] at hc
        exact List.drop_subset _ _ hc
    · exact ⟨"000000", by simp [deriveDeviceIdFromStaMac, h12], by decide, by decide⟩
  · intro h12
    simp [deriveDeviceIdFromStaMac, h12]
  · intro h12
    simp [deriveDeviceIdFromStaMac, h12]

/-- Witness for C2 at the concrete MAC string `"88:57:21:cd:4e:e4"`:
the stripped uppercased address has 12 characters, so the device id is
the prefix plus its last 6 characters (`"esp32-CD4EE4"`). -/
theorem deriveDeviceId_spec_witness :
    deriveDeviceIdFromStaMac "88:57:21:cd:4e:e4" =
      "esp32-" ++ strDrop 6 (getStaMacHexUpper "88:57:21:cd:4e:e4") :=
  (deriveDeviceId_spec "88:57:21:cd:4e:e4" (by decide)).2.1 (by decide)

/-- Claim C3: on a normalized configuration, `influxConfigIsUsable` is
true iff url, bucket, org and token are all non-empty; equivalently —
because normalization default-fills url and bucket — iff org and token
are both non-empty, so it is false whenever org or token is empty and
true whenever both are non-empty. -/
theorem uploadCapable_iff (c : Config) :
    (influxConfigIsUsable (normalizeConfig c) = true ↔
      ((normalizeConfig c).url ≠ "" ∧ (normalizeConfig c).bucket ≠ "" ∧
       (normalizeConfig c).org ≠ "" ∧ (normalizeConfig c).token ≠ "")) ∧
    (influxConfigIsUsable (normalizeConfig c) = true ↔
      ((normalizeConfig c).org ≠ "" ∧ (normalizeConfig c).token ≠ "")) := by
  have hu := normalize_url_len c
  have hb := normalize_bucket_len c
  rw [strLen_eq_zero_iff] at hu hb
  constructor
  · simp [influxConfigIsUsable, strLen_eq_zero_iff, and_assoc]
  · simp [influxConfigIsUsable, strLen_eq_zero_iff, hu, hb, and_assoc]

/-- Witness for C3: the sample configuration has non-empty org and
token, hence normalizes to an upload-capable configuration. -/
theorem uploadCapable_iff_witness :
    influxConfigIsUsable (normalizeConfig demoConfig) = true :=
  ((uploadCapable_iff demoConfig).2).mpr ⟨by decide, by decide⟩

/-- Claim C4: mode parsing accepts exactly the two tokens `operate`
and `identify` up to surrounding whitespace and ASCII case —
`"Identify"`, `" operate "` and `"IDENTIFY"` all parse — and fails
closed on every other input: a save whose mode string does not parse
(e.g. `"foo"`) leaves the current mode unchanged. -/
theorem modeParse_spec :
    (parseModeFromInput "Identify" = some Mode.Identify) ∧
    (parseModeFromInput " operate " = some Mode.Operate) ∧
    (parseModeFromInput "IDENTIFY" = some Mode.Identify) ∧
    (∀ s m, parseModeFromInput s = some m ↔
      ((strLower (strTrim s) = "operate" ∧ m = Mode.Operate) ∨
       (strLower (strTrim s) = "identify" ∧ m = Mode.Identify))) ∧
    (∀ c s m, parseModeFromInput s = some m →
      handleSaveModeStep c (some s) = { c with currentMode := m }) ∧
    (∀ c s, parseModeFromInput s = none → handleSaveModeStep c (some s) = c) ∧
    (parseModeFromInput "foo" = none) := by
  refine ⟨by decide, by decide, by decide, ?_, ?_, ?_, by decide⟩
  · intro s m
    unfold parseModeFromInput
    by_cases h1 : strLower (strTrim s) = "operate"
    · simp [h1, (by decide : ("operate" : String) ≠ "identify")]
      constructor
      · intro h
        exact h.symm
      · intro h
        exact h.symm
    · by_cases h2 : strLower (strTrim s) = "identify"
      · simp [h1, h2]
        constructor
        · intro h
          exact h.symm
        · intro h
          exact h.symm
      · simp [h1, h2]
  · intro c s m h
    simp [handleSaveModeStep, h]
  · intro c s h
    simp [handleSaveModeStep, h]

/-- Witness for C4: the fail-closed branch at the concrete input
`"foo"` leaves the sample configuration untouched. -/
theorem modeParse_spec_witness :
    handleSaveModeStep demoConfig (some "foo") = demoConfig :=
  modeParse_spec.2.2.2.2.2.1 demoConfig "foo" (by decide)

/-- Claim C7: `roomForSensorIndex` returns the trimmed `rooms` entry
when the index is in range and that entry trims to a non-empty string,
and otherwise falls back to the logical label `"S" ++ (index+1)`; with
rooms `["Kitchen", "", "Bath"]` indices 0,1,2,5 give `"Kitchen"`,
`"S2"`, `"Bath"`, `"S6"`. -/
theorem roomName_spec :
    (∀ (c : Config) (i : Int),
      roomForSensorIndex c i =
        if 0 ≤ i ∧ i < (c.rooms.length : Int) ∧ strTrim (c.rooms.getD i.toNat "") ≠ ""
        then strTrim (c.rooms.getD i.toNat "")
        else sensorIdFromIndex i) ∧
    roomForSensorIndex demoConfig 0 = "Kitchen" ∧
    roomForSensorIndex demoConfig 1 = "S2" ∧
    roomForSensorIndex demoConfig 2 = "Bath" ∧
    roomForSensorIndex demoConfig 5 = "S6" := by
  refine ⟨?_, by decide, by decide, by decide, by decide⟩
  intro c i
  simp only [roomForSensorIndex]
  by_cases h : 0 ≤ i ∧ i < (c.rooms.length : Int)
  · by_cases he : strTrim (c.rooms.getD i.toNat "") = ""
    · rw [if_pos h, if_neg (by rw [he]; decide), if_neg (fun hc => hc.2.2 he)]
    · have hpos : 0 < strLen (strTrim (c.rooms.getD i.toNat "")) := by
        have := (strLen_eq_zero_iff (strTrim (c.rooms.getD i.toNat ""))).not.mpr he
        omega
      rw [if_pos h, if_pos hpos, if_pos ⟨h.1, h.2, he⟩]
  · rw [if_neg h, if_neg (fun hc => h ⟨hc.1, hc.2.1⟩)]

/-- Claim C5: in an upload cycle that passes its preconditions, every
enumerated sensor with a resolvable address is submitted regardless of
earlier per-sensor failures (the submitted list is the full filter-map
over all enumerated indices, independent of `writeOk`), the batch is
flushed exactly once, and the cycle's signal is the flush result
alone; concretely, with 3 enumerated sensors and index 1 unresolvable
the cycle submits 2 points, flushes once and signals success when the
flush succeeds. -/
theorem uploadCycle_spec :
    (∀ (c : Config) (cl : InfluxClient) (env : LoopEnv) (nowMs lastSampleMs : Nat),
      c.currentMode = Mode.Operate →
      c.operateIntervalMs ≤ usub32 nowMs lastSampleMs →
      influxConfigIsUsable c = true →
      0 < env.deviceCount →
      loopTick c (some cl) env nowMs lastSampleMs =
        { submitted := (List.range ((if env.deviceCount > (MAX_ROOMS : Int)
              then (MAX_ROOMS : Int) else env.deviceCount).toNat)).filterMap
                (fun i => (env.address i).map (buildPoint c env i)),
          writeFailures := (List.range ((if env.deviceCount > (MAX_ROOMS : Int)
              then (MAX_ROOMS : Int) else env.deviceCount).toNat)).filter
                (fun i => ((env.address i).isSome && ! env.writeOk i)),
          flushCalls := 1,
          signal := some env.flushOk,
          newLastSampleMs := nowMs }) ∧
    ((loopTick (normalizeConfig demoConfig) (some scenarioClient) scenarioEnv 30000 0).submitted.length = 2 ∧
     (loopTick (normalizeConfig demoConfig) (some scenarioClient) scenarioEnv 30000 0).flushCalls = 1 ∧
     (loopTick (normalizeConfig demoConfig) (some scenarioClient) scenarioEnv 30000 0).signal = some true) := by
  constructor
  · intro c cl env nowMs lastSampleMs hmode htimer husable hcount
    have h1 : ¬ c.currentMode = Mode.Identify := by
      rw [hmode]
      intro hx
      exact Mode.noConfusion hx
    have h2 : ¬ (usub32 nowMs lastSampleMs < c.operateIntervalMs) := by omega
    have h3 : ¬ (¬ (influxConfigIsUsable c = true) ∨ (some cl : Option InfluxClient) = none) := by
      simp [husable]
    have h4 : ¬ (env.deviceCount ≤ 0) := by omega
    simp only [loopTick]
    rw [if_neg h1, if_neg h2, if_neg h3, if_neg h4]
    simp only [sensorLoop_eq]
  · exact ⟨by decide, by decide, by decide⟩

/-- Witness for C5: the general cycle theorem applied to the concrete
3-sensor scenario with index 1 unresolvable. -/
theorem uploadCycle_spec_witness :
    loopTick (normalizeConfig demoConfig) (some scenarioClient) scenarioEnv 30000 0 =
      { submitted := [buildPoint (normalizeConfig demoConfig) scenarioEnv 0 [0, 40],
                      buildPoint (normalizeConfig demoConfig) scenarioEnv 2 [2, 40]],
        writeFailures := [], flushCalls := 1, signal := some true,
        newLastSampleMs := 30000 } := by
  have h := uploadCycle_spec.1 (normalizeConfig demoConfig) scenarioClient scenarioEnv
    30000 0 (by decide) (by decide) (by decide) (by decide)
  rw [h]
  decide

/-- Claim C6: while the mode is Identify, re-applying the runtime
configuration leaves the upload client absent (`none`) and a loop tick
performs no network writes at all (nothing submitted, no flush); when
the mode is Operate with upload-capable credentials, re-application
rebuilds the client from the current configuration and immediately
attempts connection validation. -/
theorem identifyTeardown_spec :
    (∀ c : Config, c.currentMode = Mode.Identify →
      (applyConfigToRuntime c).client = none) ∧
    (∀ (c : Config) (client : Option InfluxClient) (env : LoopEnv)
        (nowMs lastSampleMs : Nat),
      c.currentMode = Mode.Identify →
      loopTick c client env nowMs lastSampleMs =
        { submitted := [], writeFailures := [], flushCalls := 0,
          signal := none, newLastSampleMs := lastSampleMs }) ∧
    (∀ c : Config, c.currentMode = Mode.Operate → influxConfigIsUsable c = true →
      applyConfigToRuntime c =
        { client := some (initInfluxClient c), validationAttempted := true }) := by
  refine ⟨?_, ?_, ?_⟩
  · intro c h
    simp [applyConfigToRuntime, h]
  · intro c client env nowMs lastSampleMs h
    simp only [loopTick]
    rw [if_pos h]
  · intro c hmode husable
    have h1 : ¬ c.currentMode = Mode.Identify := by
      rw [hmode]
      intro hx
      exact Mode.noConfusion hx
    simp [applyConfigToRuntime, h1, husable]

/-- Witness for C6: concrete Identify-mode configuration — client torn
down, tick inert — and the normalized sample configuration in Operate
mode — client rebuilt with validation. -/
theorem identifyTeardown_spec_witness :
    (applyConfigToRuntime identifyConfig).client = none ∧
    loopTick identifyConfig (some scenarioClient) scenarioEnv 30000 0 =
      { submitted := [], writeFailures := [], flushCalls := 0,
        signal := none, newLastSampleMs := 0 } ∧
    applyConfigToRuntime (normalizeConfig demoConfig) =
      { client := some (initInfluxClient (normalizeConfig demoConfig)),
        validationAttempted := true } :=
  ⟨identifyTeardown_spec.1 identifyConfig (by decide),
   identifyTeardown_spec.2.1 identifyConfig (some scenarioClient) scenarioEnv 30000 0 (by decide),
   identifyTeardown_spec.2.2 (normalizeConfig demoConfig) (by decide) (by decide)⟩

/-- Claim C9: decoding the persisted blob produced by encoding a
normalized configuration returns it unchanged —
`loadConfig (saveConfig (normalizeConfig c)) = normalizeConfig c`,
with `saveConfig` serializing every field and `loadConfig` the
deserialization with per-field defaulting. -/
theorem loadSave_roundTrip (c : Config) :
    loadConfig (saveConfig (normalizeConfig c)) = normalizeConfig c := by
  have hr : (normalizeConfig c).rooms.take MAX_ROOMS = (normalizeConfig c).rooms :=
    List.take_of_length_le (normalize_rooms_le c)
  simp only [loadConfig, saveConfig, Option.getD_some, parse_modeToString, hr]
  exact normalizeConfig_stable c

/-- Claim C10: after a room-save request, the rooms sequence has length
exactly the enumerated sensor count clamped to [0, 32], entry `i` is
form field `room(i+1)` (empty when absent), and no previously stored
room name survives — the new sequence is determined by the form fields
alone. -/
theorem saveRooms_spec (c : Config) (deviceCount : Int)
    (args : String → Option String) (mac : String) :
    (handleSaveRooms c deviceCount args mac).rooms =
      (List.range (min (max deviceCount 0) (MAX_ROOMS : Int)).toNat).map
        (fun i => (args ("room" ++ toString (i + 1))).getD "") ∧
    (handleSaveRooms c deviceCount args mac).rooms.length =
      (min (max deviceCount 0) (MAX_ROOMS : Int)).toNat := by
  have hcnt : ((if (if deviceCount < 0 then 0 else deviceCount) > (MAX_ROOMS : Int)
      then (MAX_ROOMS : Int) else (if deviceCount < 0 then 0 else deviceCount)).toNat)
      = (min (max deviceCount 0) (MAX_ROOMS : Int)).toNat := by
    simp only [MAX_ROOMS]
    split_ifs <;> omega
  simp only [handleSaveRooms]
  rw [normalize_rooms_short, enforce_rooms]
  · constructor
    · rw [hcnt]
    · rw [List.length_map, List.length_range, hcnt]
  · rw [enforce_rooms]
    simp only [List.length_map, List.length_range]
    rw [hcnt]
    simp only [MAX_ROOMS]
    omega

end Templogger
